import Mathlib

/-!
Verification of the TAX-INTELLIGENCE client core: the conversation state
machine, session store, feedback path, network-resilience wrappers
(retry with backoff, rate limiting, 401 credential eviction) and the
error-mapping utility. Each definition is a shallow embedding of the
corresponding JavaScript function from the repository; the source file
and symbol are named in each doc comment.
-/

/-! ## Error model (axios-style errors, `services/api.js`) -/

/-- The `data` field of an axios error response; `message` is the optional
payload message read by `handleAPIError` (`data.message`). -/
structure ErrData where
  message : Option String
deriving DecidableEq, Repr

/-- An axios `error.response`: HTTP status plus payload. -/
structure ErrResponse where
  status : Nat
  data : ErrData
deriving DecidableEq, Repr

/-- An axios error as consumed by `handleAPIError` and `withRetry`:
`response` is present when the server answered with a non-2xx status,
`request` is true when the request was sent but no response arrived
(network error), and `message` is the generic JS error message. -/
structure ApiError where
  response : Option ErrResponse
  request : Bool
  message : Option String
deriving DecidableEq, Repr

/-- JS `a || b` on an optional string: the empty string is falsy, so it
falls through to the default, as does an absent value. -/
def jsOrElse (m : Option String) (dflt : String) : String :=
  match m with
  | some s => if s = "" then dflt else s
  | none => dflt

/-- `handleAPIError` from `services/api.js` (src/unnamed/part_000,
lines 381-409): maps an axios error to a user-facing string.  The
`switch (status)` is rendered as a chain of equality tests. -/
def handleAPIError (e : ApiError) : String :=
  match e.response with
  | some r =>
    if r.status = 400 then jsOrElse r.data.message "Invalid request. Please check your input."
    else if r.status = 401 then "Authentication required. Please log in."
    else if r.status = 403 then "Access denied. You do not have permission to perform this action."
    else if r.status = 404 then "The requested resource was not found."
    else if r.status = 429 then "Too many requests. Please wait a moment and try again."
    else if r.status = 500 then "Server error. Please try again later."
    else jsOrElse r.data.message "An unexpected error occurred."
  | none =>
    if e.request then "Network error. Please check your connection and try again."
    else jsOrElse e.message "An unexpected error occurred."

/-! ## Retry wrapper (`withRetry`, src/unnamed/part_000 lines 440-463) -/

/-- The 4xx test from `withRetry`:
`error.response?.status >= 400 && error.response?.status < 500`.
When there is no `response` (network error) the JS comparison on
`undefined` is false, so the error counts as retryable. -/
def isClientError (e : ApiError) : Bool :=
  match e.response with
  | some r => decide (400 ≤ r.status) && decide (r.status < 500)
  | none => false

/-- A call outcome that `withRetry` does retry: a failure that is not a
client (4xx) error. -/
def retryableFail {α : Type} : Except ApiError α → Bool
  | .error e => !(isClientError e)
  | .ok _ => false

/-- The error carried by a failed call outcome, `none` on success;
used to express "the last observed failure". -/
def jsErrOf {α : Type} : Except ApiError α → Option ApiError
  | .error e => some e
  | .ok _ => none

/-- Observable outcome of a `withRetry` run: the returned value or
thrown error (`none` models throwing the never-assigned `lastError`
when `maxRetries = 0`), the number of times the wrapped call was
invoked, and the list of inserted back-off delays in order. -/
structure RetryOutcome (α : Type) where
  result : Except (Option ApiError) α
  calls : Nat
  delays : List Nat
deriving Repr

/-- The `for (let attempt = 1; attempt <= maxRetries; attempt++)` loop of
`withRetry`, recursing on the remaining attempt budget.  The wrapped call
is modelled as a function of the 1-based attempt number.  On a failure
that is a client error the error is rethrown at once; on the last attempt
the loop ends and `lastError` (the error just caught) is thrown; otherwise
the loop sleeps `delay * 2 ^ (attempt - 1)` and retries. -/
def retryGo {α : Type} (f : Nat → Except ApiError α) (delay : Nat) :
    Nat → Nat → Option ApiError → RetryOutcome α
  | 0, _, lastError => ⟨.error lastError, 0, []⟩
  | rem + 1, attempt, _ =>
    match f attempt with
    | .ok a => ⟨.ok a, 1, []⟩
    | .error e =>
      if isClientError e then ⟨.error (some e), 1, []⟩
      else if rem = 0 then ⟨.error (some e), 1, []⟩
      else
        let o := retryGo f delay rem (attempt + 1) (some e)
        ⟨o.result, o.calls + 1, delay * 2 ^ (attempt - 1) :: o.delays⟩

/-- `withRetry(apiCall, maxRetries, delay)` from `services/api.js`:
runs the attempt loop starting at attempt 1 with `lastError` unset
(the source defaults are `maxRetries = 3`, `delay = 1000`). -/
def withRetry {α : Type} (f : Nat → Except ApiError α) (maxRetries delay : Nat) :
    RetryOutcome α :=
  retryGo f delay maxRetries 1 none

/-! ## Rate limiter (`withRateLimit`, src/unnamed/part_000 lines 423-437) -/

/-- One call through `withRateLimit(apiCall, delay)`.  `lastCall` is the
closure cursor (the previous call start, initially 0), `now` the arrival
time (`Date.now()`).  If less than `delay` has elapsed the call sleeps
for the remainder, so the wrapped call starts — and the cursor is reset —
at `lastCall + delay`; otherwise it starts immediately at `now`.  The
returned value is the start time, which is also the new cursor. -/
def rateLimitStep (delay lastCall now : Nat) : Nat :=
  if now - lastCall < delay then lastCall + delay else now

/-! ## Language and translations (`services/LanguageContext.js`) -/

/-- The closed set of supported locales in the translation table
(`translations` has exactly the keys `en` and `es`); `changeLanguage`
rejects any other code, so the machine state only ever holds one of
these. -/
inductive Lang
  | en
  | es
deriving DecidableEq, Repr

/-- `translations[lang].welcome_message` from `LanguageContext.js`. -/
def welcome_message : Lang → String
  | .en => "Hello! I\x27m your Tax Intelligence Assistant. I can help you understand the Earned Income Tax Credit (EITC), check your eligibility, and answer questions about tax requirements. How can I assist you today?"
  | .es => "¡Hola! Soy su Asistente de Inteligencia Fiscal. Puedo ayudarle a entender el Crédito Tributario por Ingreso del Trabajo (EITC), verificar su elegibilidad y responder preguntas sobre requisitos fiscales. ¿Cómo puedo asistirle hoy?"

/-- `translations[lang].error_response` from `LanguageContext.js`: the
locally-sourced fallback text for a failed exchange.  The key is defined
and non-empty in both locales, so the `|| <literal>` fallback in
`ChatInterface` never fires. -/
def error_response : Lang → String
  | .en => "I apologize, but I encountered an error. Please try again or contact support if the problem persists."
  | .es => "Me disculpo, pero encontré un error. Por favor, inténtelo de nuevo o contacte al soporte si el problema persiste."

/-! ## Messages and the conversation state (`components/ChatInterface.js`,
stored in src/frontend/src/components/TypingIndicator.js lines 24-305) -/

/-- Message roles: the source stores `type: 'user' | 'assistant'`. -/
inductive Role
  | user
  | assistant
deriving DecidableEq, Repr

/-- Message ids as the source produces them: the synthetic welcome
message has the string id `'welcome'`; every other message gets a
numeric `Date.now()`-based id. -/
inductive MsgId
  | welcome
  | time (t : Nat)
deriving DecidableEq, Repr

/-- A conversation-log entry as built in `ChatInterface`.  `sessionId` is
set only on successful assistant replies (from `response.session_id`). -/
structure Message where
  id : MsgId
  role : Role
  content : String
  timestamp : Nat
  isWelcome : Bool
  isError : Bool
  sessionId : Option String
deriving DecidableEq, Repr

/-- The body sent by `chatMutation.mutate` (`context` is always the empty
object and is omitted). -/
structure ChatRequest where
  message : String
  session_id : String
  language : Lang
deriving DecidableEq, Repr

/-- The response shape consumed by `chatMutation.onSuccess`. -/
structure ChatResponse where
  response : String
  timestamp : Nat
  session_id : String
deriving DecidableEq, Repr

/-- The body sent by `feedbackMutation.mutate` on the quick-feedback
path of `handleFeedback`. -/
structure FeedbackRequest where
  session_id : String
  rating : Nat
  feedback_text : String
  message_id : MsgId
deriving DecidableEq, Repr

/-- Session metadata from `SessionContext.js` (`sessionData`). -/
structure SessionData where
  conversationCount : Nat
  startTime : Nat
  lastActivity : Nat
deriving DecidableEq, Repr

/-- `incrementConversationCount` from `SessionContext.js`
(src/unnamed/part_000 lines 217-223): adds one to the count and stamps
`lastActivity`. -/
def incrementConversationCount (now : Nat) (sd : SessionData) : SessionData :=
  { sd with conversationCount := sd.conversationCount + 1, lastActivity := now }

/-- The client state visible to the conversation machine: the `messages`
log, the input buffer, the in-flight flag (`chatMutation.isLoading`),
the ambient session, and — as observables for the no-network claims —
the lists of chat and feedback requests issued so far. -/
structure ChatState where
  messages : List Message
  inputMessage : String
  pending : Bool
  language : Lang
  sessionId : String
  session : SessionData
  requests : List ChatRequest
  feedbackRequests : List FeedbackRequest
  selectedMessageId : Option MsgId
  showFeedback : Bool
deriving DecidableEq, Repr

/-- The whitespace class removed by JS `String.prototype.trim` (the ASCII
part, which covers every input the claims exercise). -/
def isJsWhitespace (c : Char) : Bool :=
  c = ' ' || c = '\t' || c = '\n' || c = '\r' || c = '\x0b' || c = '\x0c'

/-- JS `s.trim()`: strip leading and trailing whitespace. -/
def jsTrim (s : String) : String :=
  ⟨(((s.data.dropWhile isJsWhitespace).reverse.dropWhile isJsWhitespace).reverse)⟩

/-- The welcome message built by the `useEffect` on
`[language, translations]` (`ChatInterface` lines 50-59). -/
def welcomeMessageAt (now : Nat) (l : Lang) : Message :=
  { id := .welcome, role := .assistant, content := welcome_message l,
    timestamp := now, isWelcome := true, isError := false, sessionId := none }

/-- The effect body of that `useEffect`: `setMessages([welcomeMessage])`
replaces the whole log with the single fresh welcome message. -/
def welcomeEffect (now : Nat) (s : ChatState) : ChatState :=
  { s with messages := [welcomeMessageAt now s.language] }

/-- `changeLanguage` from `LanguageContext.js` combined with the welcome
`useEffect` it triggers: switching to a (supported) locale different from
the current one re-renders with the new translation table and re-runs the
effect; selecting the current locale changes no state, so the effect does
not re-run.  Unsupported codes cannot be represented in `Lang` (the
source rejects them with no state change). -/
def changeLanguage (now : Nat) (l : Lang) (s : ChatState) : ChatState :=
  if l = s.language then s else welcomeEffect now { s with language := l }

/-- `handleSendMessage` (`ChatInterface` lines 110-132): a no-op when the
trimmed input is empty (JS falsy) or a mutation is in flight; otherwise
appends the user message, clears the input, and issues the chat request
(entering the pending state). -/
def handleSendMessage (now : Nat) (s : ChatState) : ChatState :=
  if jsTrim s.inputMessage = "" ∨ s.pending = true then s
  else
    let content := jsTrim s.inputMessage
    let u : Message :=
      { id := .time now, role := .user, content := content, timestamp := now,
        isWelcome := false, isError := false, sessionId := none }
    { s with
        messages := s.messages ++ [u],
        inputMessage := "",
        pending := true,
        requests := s.requests ++
          [{ message := content, session_id := s.sessionId, language := s.language }] }

/-- `chatMutation.onSuccess` (`ChatInterface` lines 70-79): appends the
assistant message built from the service response and clears the
in-flight flag.  A resolution can only fire for a previously issued
mutation, hence the `pending` guard.  Note: nothing here touches
`session` — the component never calls `incrementConversationCount`. -/
def chatOnSuccess (now : Nat) (resp : ChatResponse) (s : ChatState) : ChatState :=
  if s.pending then
    let a : Message :=
      { id := .time (now + 1), role := .assistant, content := resp.response,
        timestamp := resp.timestamp, isWelcome := false, isError := false,
        sessionId := some resp.session_id }
    { s with messages := s.messages ++ [a], pending := false }
  else s

/-- `chatMutation.onError` (`ChatInterface` lines 80-92): appends an
assistant message flagged `isError` whose content is the current
locale's `error_response` string, and clears the in-flight flag. -/
def chatOnError (now : Nat) (s : ChatState) : ChatState :=
  if s.pending then
    let a : Message :=
      { id := .time (now + 1), role := .assistant,
        content := error_response s.language, timestamp := now,
        isWelcome := false, isError := true, sessionId := none }
    { s with messages := s.messages ++ [a], pending := false }
  else s

/-- How the in-flight exchange resolves: the mutation fires exactly one
of `onSuccess` / `onError`. -/
inductive Resolution
  | success (resp : ChatResponse)
  | failure
deriving DecidableEq, Repr

/-- Dispatch a resolution to the matching mutation callback. -/
def resolveStep (now : Nat) (r : Resolution) (s : ChatState) : ChatState :=
  match r with
  | .success resp => chatOnSuccess now resp s
  | .failure => chatOnError now s

/-! ## Feedback path (`handleFeedback`, `ChatInterface` lines 158-172,
and the button guard in `MessageBubble`) -/

/-- JS truthiness of the optional `rating` argument: absent (detailed
path) and `0` are falsy. -/
def jsTruthyNat : Option Nat → Bool
  | some v => v != 0
  | none => false

/-- `handleFeedback(messageId, rating)`: records the selected message,
then — whenever `rating` is truthy — fires `feedbackMutation.mutate`
with the quick-feedback body, with no check that `messageId` occurs in
the log; with a falsy `rating` it opens the detailed modal instead. -/
def handleFeedback (s : ChatState) (messageId : MsgId) (rating : Option Nat) : ChatState :=
  let s0 := { s with selectedMessageId := some messageId }
  if jsTruthyNat rating then
    { s0 with feedbackRequests := s0.feedbackRequests ++
        [{ session_id := s0.sessionId, rating := rating.getD 0,
           feedback_text := "", message_id := messageId }] }
  else
    { s0 with showFeedback := true }

/-- The guard in `MessageBubble` (`LanguageContext.js` line 413) deciding
whether the quick-feedback buttons are rendered for a message:
`!isUser && !isWelcome && !isError`. -/
def showsFeedbackButtons (m : Message) : Bool :=
  !(m.role == .user) && !m.isWelcome && !m.isError

/-! ## Credential eviction (`api.interceptors.response`, src/unnamed/
part_000 lines 273-285, and `AuthProvider`, src/unnamed/part_001) -/

/-- The browser-level state the 401 interceptor touches: the persisted
token (`localStorage['tax-intelligence-token']`), the current path, and
the in-memory `isAuthenticated` flag of `AuthContext`. -/
structure BrowserState where
  token : Option String
  path : String
  isAuthenticated : Bool
deriving DecidableEq, Repr

/-- The mount `useEffect` of `AuthProvider` (src/unnamed/part_001 lines
11-19): `isAuthenticated` starts false and is set true exactly when a
token is persisted. -/
def authInitEffect (b : BrowserState) : BrowserState :=
  if b.token.isSome then { b with isAuthenticated := true } else b

/-- A full page load at `path` (as caused by assigning
`window.location.href`): the app remounts, so `AuthProvider` restarts
from `useState(false)` and runs its mount effect against the persisted
token. -/
def pageLoad (path : String) (token : Option String) : BrowserState :=
  authInitEffect { token := token, path := path, isAuthenticated := false }

/-- The axios response interceptor error branch: on a 401 status the
token is removed from storage unconditionally, and if the current path
is under `/admin` the browser navigates to `/admin/login` (a full page
load).  Any other status leaves the state alone (the error is simply
re-thrown to the caller). -/
def responseInterceptor (status : Nat) (b : BrowserState) : BrowserState :=
  if status = 401 then
    let b1 := { b with token := none }
    if b1.path.startsWith "/admin" then pageLoad "/admin/login" b1.token
    else b1
  else b

/-! ## Concrete states used by witnesses and counterexamples -/

/-- A freshly mounted client before the welcome effect: empty log, empty
input, no exchange in flight, English locale, fresh session metadata. -/
def s0 : ChatState :=
  { messages := [], inputMessage := "", pending := false, language := .en,
    sessionId := "sess-1",
    session := { conversationCount := 0, startTime := 0, lastActivity := 0 },
    requests := [], feedbackRequests := [], selectedMessageId := none,
    showFeedback := false }

/-- The fresh client after the mount welcome effect: log holds exactly
the synthetic welcome message. -/
def sWelcomeOnly : ChatState := welcomeEffect 0 s0

/-- The end-to-end scenario of the spec run on the embedded code: from a
fresh session, type "Am I eligible for EITC?", submit, and let the
mocked service answer "Yes, based on...". -/
def c2trace : ChatState :=
  chatOnSuccess 20 { response := "Yes, based on...", timestamp := 21, session_id := "sess-1" }
    (handleSendMessage 10 { sWelcomeOnly with inputMessage := "Am I eligible for EITC?" })

/-- The successful assistant reply present in `c2trace` (id from the
mocked resolution time 20 plus 1). -/
def mAsstEx : Message :=
  { id := .time 21, role := .assistant, content := "Yes, based on...",
    timestamp := 21, isWelcome := false, isError := false,
    sessionId := some "sess-1" }

/-! ## Claim theorems -/

/-- Claim C3: a submit is a no-op — message log unchanged and no network
request issued — whenever the input text is empty or whitespace-only
(its JS trim is empty) or an Exchange is already pending. -/
theorem submit_rejected_is_noop (now : Nat) (s : ChatState)
    (h : jsTrim s.inputMessage = "" ∨ s.pending = true) :
    (handleSendMessage now s).messages = s.messages ∧
    (handleSendMessage now s).requests = s.requests := by
  rw [handleSendMessage, if_pos h]
  exact ⟨rfl, rfl⟩

/-- Witness for C3: a whitespace-only input at a concrete idle state is
rejected with the log and the request list untouched. -/
theorem submit_rejected_is_noop_witness :
    (handleSendMessage 5 { s0 with inputMessage := "   " }).messages =
      ({ s0 with inputMessage := "   " } : ChatState).messages ∧
    (handleSendMessage 5 { s0 with inputMessage := "   " }).requests =
      ({ s0 with inputMessage := "   " } : ChatState).requests :=
  submit_rejected_is_noop 5 { s0 with inputMessage := "   " } (Or.inl (by decide))

/-- Claim C5: a failure carrying a 4xx status is surfaced immediately:
the wrapped call runs exactly once, no delay is inserted, and the same
error is rethrown. -/
theorem client_error_no_retry {α : Type} (f : Nat → Except ApiError α)
    (maxRetries delay : Nat) (e : ApiError)
    (hm : 1 ≤ maxRetries) (hf : f 1 = .error e) (hc : isClientError e = true) :
    withRetry f maxRetries delay = ⟨.error (some e), 1, []⟩ := by
  obtain ⟨m, rfl⟩ : ∃ m, maxRetries = m + 1 := ⟨maxRetries - 1, by omega⟩
  unfold withRetry
  simp [retryGo, hf, hc]

/-- Witness for C5: a call that always fails with 404 is invoked once
and its error surfaced with no delays. -/
theorem client_error_no_retry_witness :
    withRetry (fun _ => (.error { response := some { status := 404, data := { message := none } }, request := true, message := none } : Except ApiError Nat)) 3 100 =
      ⟨.error (some { response := some { status := 404, data := { message := none } }, request := true, message := none }), 1, []⟩ :=
  client_error_no_retry _ 3 100 _ (by omega) rfl rfl

/-- Claim C6: consecutive calls through the rate limiter start at least
the configured interval apart, and a call arriving sooner than the
interval after the previous start is delayed (not dropped) to exactly
the end of the interval. -/
theorem rate_limit_spacing (T prevStart now : Nat) (h : prevStart ≤ now) :
    prevStart + T ≤ rateLimitStep T prevStart now ∧
    (now < prevStart + T → rateLimitStep T prevStart now = prevStart + T) := by
  unfold rateLimitStep
  constructor
  · split <;> omega
  · intro h2
    split
    · rfl
    · omega

/-- Witness for C6: with a 1000 ms interval, a second call arriving
400 ms after the previous start is pushed to exactly 1000 ms. -/
theorem rate_limit_spacing_witness :
    0 + 1000 ≤ rateLimitStep 1000 0 400 ∧
    (400 < 0 + 1000 → rateLimitStep 1000 0 400 = 0 + 1000) :=
  rate_limit_spacing 1000 0 400 (by omega)

/-- One-step unfolding of the attempt loop, used to control rewriting
when the remaining budget is a successor literal. -/
theorem retryGo_step {α : Type} (f : Nat → Except ApiError α) (d rem attempt : Nat)
    (le : Option ApiError) :
    retryGo f d (rem + 1) attempt le =
      match f attempt with
      | .ok a => ⟨.ok a, 1, []⟩
      | .error e =>
        if isClientError e then ⟨.error (some e), 1, []⟩
        else if rem = 0 then ⟨.error (some e), 1, []⟩
        else
          let o := retryGo f d rem (attempt + 1) (some e)
          ⟨o.result, o.calls + 1, d * 2 ^ (attempt - 1) :: o.delays⟩ := rfl

/-- Attempt-loop invariant for the success scenario: starting the loop at
attempt `a0 + 1` with at least `n + 1` attempts left, if attempts
`a0 + 1 .. a0 + n` fail retryably and attempt `a0 + n + 1` succeeds, the
loop returns the success after `n + 1` invocations with back-off delays
`d * 2 ^ a0, d * 2 ^ (a0 + 1), …`. -/
theorem retryGo_succeeds {α : Type} (f : Nat → Except ApiError α) (d : Nat) (a : α) :
    ∀ (n rem a0 : Nat) (le : Option ApiError),
      n + 1 ≤ rem →
      (∀ k, a0 + 1 ≤ k → k < a0 + n + 1 → retryableFail (f k) = true) →
      f (a0 + n + 1) = .ok a →
      retryGo f d rem (a0 + 1) le =
        ⟨.ok a, n + 1, (List.range n).map (fun j => d * 2 ^ (a0 + j))⟩ := by
  intro n
  induction n with
  | zero =>
    intro rem a0 le hrem hfail hsucc
    obtain ⟨r, rfl⟩ : ∃ r, rem = r + 1 := ⟨rem - 1, by omega⟩
    have hs : f (a0 + 1) = .ok a := by simpa using hsucc
    simp [retryGo, hs]
  | succ n ih =>
    intro rem a0 le hrem hfail hsucc
    obtain ⟨r, rfl⟩ : ∃ r, rem = r + 1 := ⟨rem - 1, by omega⟩
    have hfa : retryableFail (f (a0 + 1)) = true :=
      hfail (a0 + 1) (Nat.le_refl _) (by omega)
    obtain ⟨e, he, hce⟩ : ∃ e, f (a0 + 1) = .error e ∧ isClientError e = false := by
      cases hfe : f (a0 + 1) with
      | ok v => rw [hfe] at hfa; simp [retryableFail] at hfa
      | error e =>
        rw [hfe] at hfa
        simp [retryableFail] at hfa
        exact ⟨e, rfl, hfa⟩
    have hr : r ≠ 0 := by omega
    have ihh := ih r (a0 + 1) (some e) (by omega)
      (fun k hk1 hk2 => hfail k (by omega) (by omega))
      (by rw [show a0 + 1 + n + 1 = a0 + (n + 1) + 1 from by omega]; exact hsucc)
    simp only [retryGo, he, hce, if_neg hr, Bool.false_eq_true, if_false]
    rw [ihh]
    have hfun : (fun j => d * 2 ^ (a0 + 1 + j)) = ((fun j => d * 2 ^ (a0 + j)) ∘ Nat.succ) := by
      funext j
      simp only [Function.comp_apply]
      rw [show a0 + Nat.succ j = a0 + 1 + j from by omega]
    simp [List.range_succ_eq_map, List.map_map, hfun, Nat.add_sub_cancel]

/-- Attempt-loop invariant for the all-fail scenario: with exactly
`n + 1` attempts left starting at attempt `a0 + 1`, if every attempt in
range fails retryably, the loop makes all `n + 1` invocations, inserts
the exponential delays, and rethrows the error of the last attempt. -/
theorem retryGo_all_fail {α : Type} (f : Nat → Except ApiError α) (d : Nat) :
    ∀ (n a0 : Nat) (le : Option ApiError),
      (∀ k, a0 + 1 ≤ k → k < a0 + n + 2 → retryableFail (f k) = true) →
      retryGo f d (n + 1) (a0 + 1) le =
        ⟨.error (jsErrOf (f (a0 + n + 1))), n + 1,
          (List.range n).map (fun j => d * 2 ^ (a0 + j))⟩ := by
  intro n
  induction n with
  | zero =>
    intro a0 le hfail
    have hfa : retryableFail (f (a0 + 1)) = true :=
      hfail (a0 + 1) (Nat.le_refl _) (by omega)
    obtain ⟨e, he, hce⟩ : ∃ e, f (a0 + 1) = .error e ∧ isClientError e = false := by
      cases hfe : f (a0 + 1) with
      | ok v => rw [hfe] at hfa; simp [retryableFail] at hfa
      | error e =>
        rw [hfe] at hfa
        simp [retryableFail] at hfa
        exact ⟨e, rfl, hfa⟩
    simp [retryGo, he, hce, jsErrOf]
  | succ n ih =>
    intro a0 le hfail
    have hfa : retryableFail (f (a0 + 1)) = true :=
      hfail (a0 + 1) (Nat.le_refl _) (by omega)
    obtain ⟨e, he, hce⟩ : ∃ e, f (a0 + 1) = .error e ∧ isClientError e = false := by
      cases hfe : f (a0 + 1) with
      | ok v => rw [hfe] at hfa; simp [retryableFail] at hfa
      | error e =>
        rw [hfe] at hfa
        simp [retryableFail] at hfa
        exact ⟨e, rfl, hfa⟩
    have ihh := ih (a0 + 1) (some e)
      (fun k hk1 hk2 => hfail k (by omega) (by omega))
    have hr : n + 1 ≠ 0 := by omega
    rw [retryGo_step, he]
    simp only [hce, Bool.false_eq_true, if_false, if_neg hr]
    rw [ihh]
    rw [show a0 + 1 + n + 1 = a0 + (n + 1) + 1 from by omega]
    have hfun : (fun j => d * 2 ^ (a0 + 1 + j)) = ((fun j => d * 2 ^ (a0 + j)) ∘ Nat.succ) := by
      funext j
      simp only [Function.comp_apply]
      rw [show a0 + Nat.succ j = a0 + 1 + j from by omega]
    simp [List.range_succ_eq_map, List.map_map, hfun, Nat.add_sub_cancel]

/-- Claim C4: (i) if the wrapped call fails retryably (non-4xx) on the
first `N - 1` invocations and succeeds on the `N`-th, `1 ≤ N ≤
maxRetries`, then `withRetry` returns the success, invokes the call
exactly `N` times, and the delay before retry attempt `k + 1` is
`baseDelay * 2 ^ (k - 1)` (entry `k` of the 0-based delay list is
`baseDelay * 2 ^ k`); (ii) if all `maxRetries` invocations fail
retryably, the last observed failure is rethrown after exactly
`maxRetries` invocations. -/
theorem withRetry_backoff {α : Type} (f : Nat → Except ApiError α)
    (maxRetries d N : Nat) (a : α) :
    ((1 ≤ N ∧ N ≤ maxRetries ∧
        (∀ k, 1 ≤ k → k < N → retryableFail (f k) = true) ∧ f N = .ok a) →
      withRetry f maxRetries d =
        ⟨.ok a, N, (List.range (N - 1)).map (fun k => d * 2 ^ k)⟩) ∧
    ((1 ≤ maxRetries ∧
        (∀ k, 1 ≤ k → k ≤ maxRetries → retryableFail (f k) = true)) →
      (withRetry f maxRetries d).result = .error (jsErrOf (f maxRetries)) ∧
      (withRetry f maxRetries d).calls = maxRetries) := by
  constructor
  · rintro ⟨h1, h2, hfail, hsucc⟩
    obtain ⟨n, rfl⟩ : ∃ n, N = n + 1 := ⟨N - 1, by omega⟩
    unfold withRetry
    have h := retryGo_succeeds f d a n maxRetries 0 none (by omega)
      (fun k hk1 hk2 => hfail k (by omega) (by omega))
      (by simpa using hsucc)
    simpa using h
  · rintro ⟨h1, hfail⟩
    obtain ⟨n, rfl⟩ : ∃ n, maxRetries = n + 1 := ⟨maxRetries - 1, by omega⟩
    unfold withRetry
    have h := retryGo_all_fail f d n 0 none
      (fun k hk1 hk2 => hfail k (by omega) (by omega))
    rw [show (1 : Nat) = 0 + 1 from rfl, h]
    constructor
    · simp
    · rfl

/-- Witness for C4: a call failing with 500 on attempt 1 and succeeding
on attempt 2 yields the success after 2 invocations with one 100 ms
delay; a call that always times out is invoked all 3 times and its last
error surfaced. -/
theorem withRetry_backoff_witness :
    withRetry (fun k => if k = 1 then (.error { response := some { status := 500, data := { message := none } }, request := true, message := none } : Except ApiError Nat) else .ok 7) 3 100 =
      ⟨.ok 7, 2, [100]⟩ ∧
    ((withRetry (fun _ => (.error { response := none, request := true, message := some "timeout of 30000ms exceeded" } : Except ApiError Nat)) 3 100).result =
        .error (jsErrOf ((fun _ => (.error { response := none, request := true, message := some "timeout of 30000ms exceeded" } : Except ApiError Nat)) 3)) ∧
      (withRetry (fun _ => (.error { response := none, request := true, message := some "timeout of 30000ms exceeded" } : Except ApiError Nat)) 3 100).calls = 3) := by
  constructor
  · have h := (withRetry_backoff
      (fun k => if k = 1 then (.error { response := some { status := 500, data := { message := none } }, request := true, message := none } : Except ApiError Nat) else .ok 7)
      3 100 2 7).1
      ⟨by omega, by omega, fun k h1 h2 => by interval_cases k; rfl, rfl⟩
    rw [h]
    rfl
  · exact (withRetry_backoff
      (fun _ => (.error { response := none, request := true, message := some "timeout of 30000ms exceeded" } : Except ApiError Nat))
      3 100 1 0).2
      ⟨by omega, fun k h1 h2 => rfl⟩

/-- Claim C1: an accepted submit followed by its resolution appends
exactly one terminal assistant message — the service text on success, or
an `isError` message carrying the locale fallback string on failure —
and appends it after the paired user message, which itself stays in the
log (it is never retracted). -/
theorem exchange_appends_one_terminal (s : ChatState) (t₁ t₂ : Nat) (r : Resolution)
    (hp : s.pending = false) (ht : jsTrim s.inputMessage ≠ "") :
    ∃ u a : Message,
      (handleSendMessage t₁ s).messages = s.messages ++ [u] ∧
      (resolveStep t₂ r (handleSendMessage t₁ s)).messages = s.messages ++ [u, a] ∧
      u.role = .user ∧ u.content = jsTrim s.inputMessage ∧
      a.role = .assistant ∧
      (∀ resp, r = .success resp → a.isError = false ∧ a.content = resp.response) ∧
      (r = .failure → a.isError = true ∧ a.content = error_response s.language) := by
  have hg : ¬(jsTrim s.inputMessage = "" ∨ s.pending = true) := by
    simp [ht, hp]
  cases r with
  | success resp =>
    refine ⟨{ id := .time t₁, role := .user, content := jsTrim s.inputMessage,
              timestamp := t₁, isWelcome := false, isError := false, sessionId := none },
            { id := .time (t₂ + 1), role := .assistant, content := resp.response,
              timestamp := resp.timestamp, isWelcome := false, isError := false,
              sessionId := some resp.session_id }, ?_, ?_, rfl, rfl, rfl, ?_, ?_⟩
    · rw [handleSendMessage, if_neg hg]
    · rw [handleSendMessage, if_neg hg]
      show (chatOnSuccess t₂ resp _).messages = _
      rw [chatOnSuccess]
      simp
    · intro resp2 hr
      cases hr
      exact ⟨rfl, rfl⟩
    · intro hr
      cases hr
  | failure =>
    refine ⟨{ id := .time t₁, role := .user, content := jsTrim s.inputMessage,
              timestamp := t₁, isWelcome := false, isError := false, sessionId := none },
            { id := .time (t₂ + 1), role := .assistant,
              content := error_response s.language, timestamp := t₂,
              isWelcome := false, isError := true, sessionId := none },
            ?_, ?_, rfl, rfl, rfl, ?_, ?_⟩
    · rw [handleSendMessage, if_neg hg]
    · rw [handleSendMessage, if_neg hg]
      show (chatOnError t₂ _).messages = _
      rw [chatOnError]
      simp
    · intro resp2 hr
      cases hr
    · intro hr
      exact ⟨rfl, rfl⟩

/-- Witness for C1: a concrete accepted submit resolved successfully
appends the paired user and assistant messages once each. -/
theorem exchange_appends_one_terminal_witness :
    ∃ u a : Message,
      (handleSendMessage 10 { sWelcomeOnly with inputMessage := "Am I eligible for EITC?" }).messages =
        ({ sWelcomeOnly with inputMessage := "Am I eligible for EITC?" } : ChatState).messages ++ [u] ∧
      (resolveStep 20 (.success { response := "Yes, based on...", timestamp := 21, session_id := "sess-1" })
          (handleSendMessage 10 { sWelcomeOnly with inputMessage := "Am I eligible for EITC?" })).messages =
        ({ sWelcomeOnly with inputMessage := "Am I eligible for EITC?" } : ChatState).messages ++ [u, a] ∧
      u.role = .user ∧
      u.content = jsTrim ({ sWelcomeOnly with inputMessage := "Am I eligible for EITC?" } : ChatState).inputMessage ∧
      a.role = .assistant ∧
      (∀ resp, (Resolution.success { response := "Yes, based on...", timestamp := 21, session_id := "sess-1" }) = .success resp →
        a.isError = false ∧ a.content = resp.response) ∧
      ((Resolution.success { response := "Yes, based on...", timestamp := 21, session_id := "sess-1" }) = .failure →
        a.isError = true ∧ a.content = error_response ({ sWelcomeOnly with inputMessage := "Am I eligible for EITC?" } : ChatState).language) :=
  exchange_appends_one_terminal _ 10 20 _ rfl (by decide)

/-- Counterexample to C2: in the end-to-end success scenario from a
fresh session, the embedded `chatMutation.onSuccess` never invokes the
session store, so `conversationCount` stays 0 instead of becoming 1
even though the exchange completed (log holds welcome, user and
assistant messages). -/
theorem conversation_count_stays_zero :
    c2trace.session.conversationCount = 0 ∧
    c2trace.session.conversationCount ≠ 1 ∧
    c2trace.messages.length = 3 ∧
    c2trace.pending = false := by
  constructor
  · rfl
  refine ⟨by decide, ?_, rfl⟩
  rfl

/-- Amended C2: on a successful resolution the assistant message is
appended but the Session is untouched — `recordExchange` alias
`incrementConversationCount` is never called, so `conversationCount`
keeps its prior value (0 after one exchange from a fresh session); the
store's `incrementConversationCount` itself would add exactly one. -/
theorem chat_success_leaves_session (now : Nat) (resp : ChatResponse) (s : ChatState)
    (t : Nat) (sd : SessionData) :
    (chatOnSuccess now resp s).session = s.session ∧
    (incrementConversationCount t sd).conversationCount = sd.conversationCount + 1 := by
  constructor
  · rw [chatOnSuccess]
    split <;> rfl
  · rfl

/-- Counterexample to C9: the log is not append-only under locale
(re)selection.  After a completed exchange the log holds three messages;
switching the locale re-runs the welcome effect, which replaces the
whole log with a single fresh welcome message, deleting the user and
assistant messages. -/
theorem locale_change_resets_log :
    c2trace.messages.length = 3 ∧
    (changeLanguage 30 .es c2trace).messages.length = 1 ∧
    (changeLanguage 30 .es c2trace).messages = [welcomeMessageAt 30 .es] := by
  refine ⟨rfl, rfl, rfl⟩

/-- Amended C9: the log is append-only under submit and under success
and failure resolution (each such transition leaves it unchanged or
extends it at the end, and never mutates an existing entry); locale
(re)selection to a different locale, however, replaces the entire log
with a single fresh welcome message — the welcome message is
(re)injected on every locale change, not only once. -/
theorem log_append_only_except_locale (s : ChatState) (now : Nat) (resp : ChatResponse)
    (l : Lang) (hl : l ≠ s.language) :
    (∃ t, (handleSendMessage now s).messages = s.messages ++ t) ∧
    (∃ t, (chatOnSuccess now resp s).messages = s.messages ++ t) ∧
    (∃ t, (chatOnError now s).messages = s.messages ++ t) ∧
    (changeLanguage now l s).messages = [welcomeMessageAt now l] := by
  refine ⟨?_, ?_, ?_, ?_⟩
  · rw [handleSendMessage]
    split
    · exact ⟨[], by simp⟩
    · exact ⟨_, rfl⟩
  · rw [chatOnSuccess]
    split
    · exact ⟨_, rfl⟩
    · exact ⟨[], by simp⟩
  · rw [chatOnError]
    split
    · exact ⟨_, rfl⟩
    · exact ⟨[], by simp⟩
  · rw [changeLanguage, if_neg hl]
    rfl

/-- Witness for C9 (amended): at the concrete post-exchange state, each
conversation transition only ever extends the log, and switching to
Spanish resets it to the single Spanish welcome message. -/
theorem log_append_only_except_locale_witness :
    (∃ t, (handleSendMessage 40 c2trace).messages = c2trace.messages ++ t) ∧
    (∃ t, (chatOnSuccess 40 { response := "ok", timestamp := 41, session_id := "sess-1" } c2trace).messages = c2trace.messages ++ t) ∧
    (∃ t, (chatOnError 40 c2trace).messages = c2trace.messages ++ t) ∧
    (changeLanguage 40 .es c2trace).messages = [welcomeMessageAt 40 .es] :=
  log_append_only_except_locale c2trace 40
    { response := "ok", timestamp := 41, session_id := "sess-1" } .es (by decide)

/-- Counterexample to C7: `handleFeedback` performs no validation of the
`messageId` against the log.  At a state whose log holds only the
welcome message, a quick rating for an id that occurs nowhere in the
log, and one for the synthetic welcome message itself, each issue a
feedback network call instead of being rejected. -/
theorem quick_feedback_not_validated :
    (handleFeedback sWelcomeOnly (.time 999) (some 3)).feedbackRequests.length = 1 ∧
    sWelcomeOnly.messages.all (fun m => m.id != .time 999) = true ∧
    (handleFeedback sWelcomeOnly .welcome (some 5)).feedbackRequests.length = 1 ∧
    sWelcomeOnly.messages.all (fun m => m.id != .welcome) = false := by
  refine ⟨rfl, by decide, rfl, by decide⟩

/-- Amended C7: the membership/welcome check claimed for `rate` does not
exist — `handleFeedback` fires the network call for any `messageId` with
a truthy rating.  What the code does guarantee is UI-level: quick
feedback can only be triggered from `MessageBubble` buttons, which are
rendered solely for messages that are not user, not welcome and not
error; feedback fired through such a button therefore references a
message present in the log of role assistant that is not `isWelcome`,
and issues exactly one feedback request carrying that id and session. -/
theorem quick_feedback_via_buttons (s : ChatState) (m : Message) (v : Nat)
    (hm : m ∈ s.messages) (hb : showsFeedbackButtons m = true) (hv : v ≠ 0) :
    (handleFeedback s m.id (some v)).feedbackRequests =
      s.feedbackRequests ++
        [{ session_id := s.sessionId, rating := v, feedback_text := "",
           message_id := m.id }] ∧
    m.role = .assistant ∧ m.isWelcome = false ∧
    ∃ m2, m2 ∈ s.messages ∧ m2.id = m.id ∧ m2.role = .assistant ∧ m2.isWelcome = false := by
  have hrole : m.role = .assistant := by
    cases hr : m.role
    · rw [showsFeedbackButtons, hr] at hb
      simp at hb
    · rfl
  have hw : m.isWelcome = false := by
    rw [showsFeedbackButtons] at hb
    cases hw : m.isWelcome
    · rfl
    · rw [hw] at hb
      simp at hb
  refine ⟨?_, hrole, hw, m, hm, rfl, hrole, hw⟩
  rw [handleFeedback]
  have hj : jsTruthyNat (some v) = true := by
    rw [jsTruthyNat]
    simpa using hv
  rw [if_pos hj]
  rfl

/-- Witness for C7 (amended): rating a concrete ordinary assistant reply
in the log issues exactly one well-formed feedback request. -/
theorem quick_feedback_via_buttons_witness :
    (handleFeedback c2trace mAsstEx.id (some 5)).feedbackRequests =
      c2trace.feedbackRequests ++
        [{ session_id := c2trace.sessionId, rating := 5, feedback_text := "",
           message_id := mAsstEx.id }] ∧
    mAsstEx.role = .assistant ∧ mAsstEx.isWelcome = false ∧
    ∃ m2, m2 ∈ c2trace.messages ∧ m2.id = mAsstEx.id ∧
      m2.role = .assistant ∧ m2.isWelcome = false :=
  quick_feedback_via_buttons c2trace mAsstEx 5 (by decide) rfl (by decide)

/-- Claim C8: on any response with a 401 status the persisted token is
evicted immediately and unconditionally; when the current context is the
admin (authenticated) area, the interceptor additionally navigates to
the login page, after which the remounted auth provider reads the (now
absent) token and leaves the authenticated UI state revoked. -/
theorem eviction_on_401 (b : BrowserState) (status : Nat) (h : status = 401) :
    (responseInterceptor status b).token = none ∧
    (b.path.startsWith "/admin" = true →
      (responseInterceptor status b).path = "/admin/login" ∧
      (responseInterceptor status b).isAuthenticated = false) := by
  subst h
  cases hpb : b.path.startsWith "/admin" with
  | true =>
    constructor
    · simp [responseInterceptor, pageLoad, authInitEffect, hpb]
    · intro hp
      constructor
      · simp [responseInterceptor, pageLoad, authInitEffect, hpb]
      · simp [responseInterceptor, pageLoad, authInitEffect, hpb]
  | false =>
    constructor
    · simp [responseInterceptor, hpb]
    · intro hp
      exact Bool.noConfusion hp

/-- Witness for C8: a 401 received while authenticated on an admin page
clears the token and lands on the login page unauthenticated. -/
theorem eviction_on_401_witness :
    (responseInterceptor 401 { token := some "jwt-abc", path := "/admin/dashboard", isAuthenticated := true }).token = none ∧
    (("/admin/dashboard" : String).startsWith "/admin" = true →
      (responseInterceptor 401 { token := some "jwt-abc", path := "/admin/dashboard", isAuthenticated := true }).path = "/admin/login" ∧
      (responseInterceptor 401 { token := some "jwt-abc", path := "/admin/dashboard", isAuthenticated := true }).isAuthenticated = false) :=
  eviction_on_401 { token := some "jwt-abc", path := "/admin/dashboard", isAuthenticated := true } 401 rfl

/-- Counterexample to C10: for an error response with a 4xx status the
user-facing message is not always derived from the payload message when
one is present — a 403 carrying a payload message still maps to the
fixed generic string, ignoring the payload (likewise 401, 404, 429). -/
theorem client_error_message_ignores_payload :
    handleAPIError { response := some { status := 403, data := { message := some "Quota exceeded for key" } }, request := true, message := none } =
      "Access denied. You do not have permission to perform this action." ∧
    handleAPIError { response := some { status := 403, data := { message := some "Quota exceeded for key" } }, request := true, message := none } ≠
      "Quota exceeded for key" := by
  constructor
  · rfl
  · decide

/-- Amended C10: for a 4xx error response, the message is derived from
the payload message (when present and non-empty, else the per-status
generic default) only for status 400 and for 4xx statuses outside
{401, 403, 404, 429}; for 401, 403, 404 and 429 the fixed per-status
generic message is returned regardless of the payload. -/
theorem client_error_message_mapping (e : ApiError) (r : ErrResponse)
    (hr : e.response = some r) (h4a : 400 ≤ r.status) (h4b : r.status < 500) :
    (r.status = 400 →
      handleAPIError e = jsOrElse r.data.message "Invalid request. Please check your input.") ∧
    (r.status = 401 → handleAPIError e = "Authentication required. Please log in.") ∧
    (r.status = 403 → handleAPIError e = "Access denied. You do not have permission to perform this action.") ∧
    (r.status = 404 → handleAPIError e = "The requested resource was not found.") ∧
    (r.status = 429 → handleAPIError e = "Too many requests. Please wait a moment and try again.") ∧
    (r.status ≠ 400 → r.status ≠ 401 → r.status ≠ 403 → r.status ≠ 404 → r.status ≠ 429 →
      handleAPIError e = jsOrElse r.data.message "An unexpected error occurred.") := by
  refine ⟨?_, ?_, ?_, ?_, ?_, ?_⟩
  · intro h
    simp [handleAPIError, hr, h]
  · intro h
    simp [handleAPIError, hr, h]
  · intro h
    simp [handleAPIError, hr, h]
  · intro h
    simp [handleAPIError, hr, h]
  · intro h
    simp [handleAPIError, hr, h]
  · intro h400 h401 h403 h404 h429
    simp [handleAPIError, hr, h400, h401, h403, h404, h429,
      show r.status ≠ 500 from by omega]

/-- Witness for C10 (amended): a 400 with a payload message surfaces the
payload text, and a 403 surfaces the fixed generic string. -/
theorem client_error_message_mapping_witness :
    (((400 : Nat) = 400) →
      handleAPIError { response := some { status := 400, data := { message := some "Missing field: message" } }, request := true, message := none } =
        jsOrElse (some "Missing field: message") "Invalid request. Please check your input.") ∧
    (((400 : Nat) = 401) →
      handleAPIError { response := some { status := 400, data := { message := some "Missing field: message" } }, request := true, message := none } =
        "Authentication required. Please log in.") := by
  have h := client_error_message_mapping
    { response := some { status := 400, data := { message := some "Missing field: message" } }, request := true, message := none }
    { status := 400, data := { message := some "Missing field: message" } }
    rfl (by decide) (by decide)
  exact ⟨h.1, h.2.1⟩
